import Mathlib

/-!
Formal model of the CinemaAbyss strangler-fig gateway
(`src/microservices/proxy/main.go`, routing half) and the events service
(producer/consumer half of the same directory).

The gateway terminates HTTP, classifies requests by path and forwards to one
of three upstream origins; the events service accepts typed event payloads,
publishes them to Kafka topics and runs one consumer loop per topic.
-/

/-- The three upstream origins a gateway request can be forwarded to. -/
inductive Origin where
  | monolith
  | moviesService
  | eventsService
deriving DecidableEq, Repr

/-- Gateway configuration resolved once at startup: the gradual-migration
flag (`GRADUAL_MIGRATION == "true"`) and the migration percentage parsed by
`strconv.Atoi` from `MOVIES_MIGRATION_PERCENT` (a Go `int`, hence `Int`). -/
structure GatewayConfig where
  gradualMigrationEnabled : Bool
  migrationPercent : Int
deriving DecidableEq, Repr

/-- Go `strings.HasPrefix s p`: `p` is a prefix of `s`, modelled on the
character sequences of the two strings. -/
def hasPrefixGo (s p : String) : Bool :=
  p.data.isPrefixOf s.data

/-- The routing switch of the gateway handler (main.go lines 58-73).
`draw` stands for the value of `rand.Intn(100)`, a fresh uniform sample in
`[0,100)`, passed explicitly so routing is a pure function of it. -/
def route (cfg : GatewayConfig) (path : String) (draw : Nat) : Origin :=
  if hasPrefixGo path "/api/movies" then
    if cfg.gradualMigrationEnabled = true ∧ (draw : Int) < cfg.migrationPercent then
      Origin.moviesService
    else
      Origin.monolith
  else if hasPrefixGo path "/api/events" then
    Origin.eventsService
  else
    Origin.monolith

/-- Lines 32-36: an unparsable `MOVIES_MIGRATION_PERCENT` is logged and the
percentage defaults to 0; `parsed` is the result of `strconv.Atoi`. -/
def resolveMigrationPercent (parsed : Option Int) : Int :=
  match parsed with
  | some n => n
  | none => 0

/-- Gateway startup (lines 30-49): a bad percentage is non-fatal and
defaults to 0, while a malformed upstream URL makes `log.Fatalf` abort
startup (`none`). `urlsParseOk` abstracts the three `url.Parse` calls. -/
def gatewayStartup (enabled : Bool) (percentParsed : Option Int)
    (urlsParseOk : Bool) : Option GatewayConfig :=
  if urlsParseOk then
    some ⟨enabled, resolveMigrationPercent percentParsed⟩
  else
    none

example : route ⟨true, 100⟩ "/api/movies/1" 99 = Origin.moviesService := by decide
example : route ⟨true, 0⟩ "/api/movies/1" 0 = Origin.monolith := by decide
example : route ⟨false, 100⟩ "/api/movies/1" 0 = Origin.monolith := by decide
example : route ⟨true, 100⟩ "/api/events/movie" 0 = Origin.eventsService := by decide
example : route ⟨true, 100⟩ "/api/users" 0 = Origin.monolith := by decide

/-! ## Events service: data model -/

/-- JSON values as decoded by Go `encoding/json`. Numbers are modelled as
integers: every payload in the claims carries integer-valued numbers, and
no claim depends on fractional or floating-point behaviour. -/
inductive Json where
  | null
  | bool (b : Bool)
  | num (n : Int)
  | str (s : String)
  | arr (elems : List Json)
  | obj (fields : List (String × Json))

/-- `MovieEvent` struct with its JSON field tags (main.go of the events
service): movie_id, title, action, user_id. -/
structure MovieEvent where
  movie_id : Int
  title : String
  action : String
  user_id : Int
deriving DecidableEq, Repr

/-- `UserEvent`: user_id, username, action, timestamp. The `time.Time`
timestamp is modelled by its RFC3339 string form as it appears in JSON. -/
structure UserEvent where
  user_id : Int
  username : String
  action : String
  timestamp : String
deriving DecidableEq, Repr

/-- `PaymentEvent`: payment_id, user_id, amount, status, timestamp. The
float64 amount is modelled as an integer-valued JSON number (no claim
depends on fractional amounts); the timestamp as its RFC3339 string. -/
structure PaymentEvent where
  payment_id : Int
  user_id : Int
  amount : Int
  status : String
  timestamp : String
deriving DecidableEq, Repr

/-- Go zero value of `MovieEvent`, the state `json.Decode` starts from. -/
def MovieEvent.zero : MovieEvent := ⟨0, "", "", 0⟩

/-- Go zero value of `UserEvent`. -/
def UserEvent.zero : UserEvent := ⟨0, "", "", ""⟩

/-- Go zero value of `PaymentEvent`. -/
def PaymentEvent.zero : PaymentEvent := ⟨0, 0, 0, "", ""⟩

/-- One decoded event, tagged by kind (the `eventData interface{}` of
`handleEvent` after the topic switch has picked the concrete struct). -/
inductive EventData where
  | movie (e : MovieEvent)
  | user (e : UserEvent)
  | payment (e : PaymentEvent)
deriving DecidableEq, Repr

/-- The fixed topic name constants of the events service. -/
def movieTopic : String := "movie-events"

/-- Topic for user events. -/
def userTopic : String := "user-events"

/-- Topic for payment events. -/
def paymentTopic : String := "payment-events"

/-- A message handed to `writer.WriteMessages`: target topic and the
serialized payload (the key is left unset by the service). -/
structure KafkaMessage where
  topic : String
  value : Json

/-! ## Events service: JSON decoding (Go `encoding/json` semantics)

`json.Decode` into a struct succeeds on an object (unknown fields ignored,
absent fields keep the zero value, a later duplicate overrides an earlier
one) and on `null` (value left unchanged); any other top-level value or a
type-mismatched field is an error. -/

/-- Apply one JSON object field to a `MovieEvent` being decoded. -/
def applyMovieField (e : MovieEvent) (k : String) (v : Json) :
    Except String MovieEvent :=
  if k = "movie_id" then
    match v with
    | Json.num n => Except.ok { e with movie_id := n }
    | _ => Except.error "cannot unmarshal into field movie_id of type int"
  else if k = "title" then
    match v with
    | Json.str s => Except.ok { e with title := s }
    | _ => Except.error "cannot unmarshal into field title of type string"
  else if k = "action" then
    match v with
    | Json.str s => Except.ok { e with action := s }
    | _ => Except.error "cannot unmarshal into field action of type string"
  else if k = "user_id" then
    match v with
    | Json.num n => Except.ok { e with user_id := n }
    | _ => Except.error "cannot unmarshal into field user_id of type int"
  else
    Except.ok e

/-- Fold the fields of a JSON object into a `MovieEvent`. -/
def decodeMovieFields : List (String × Json) → MovieEvent →
    Except String MovieEvent
  | [], e => Except.ok e
  | (k, v) :: rest, e =>
    match applyMovieField e k v with
    | Except.ok e2 => decodeMovieFields rest e2
    | Except.error m => Except.error m

/-- `json.Decode` of a JSON value into a `MovieEvent`. -/
def decodeMovieEvent : Json → Except String MovieEvent
  | Json.obj fields => decodeMovieFields fields MovieEvent.zero
  | Json.null => Except.ok MovieEvent.zero
  | _ => Except.error "cannot unmarshal into MovieEvent"

/-- Apply one JSON object field to a `UserEvent` being decoded. -/
def applyUserField (e : UserEvent) (k : String) (v : Json) :
    Except String UserEvent :=
  if k = "user_id" then
    match v with
    | Json.num n => Except.ok { e with user_id := n }
    | _ => Except.error "cannot unmarshal into field user_id of type int"
  else if k = "username" then
    match v with
    | Json.str s => Except.ok { e with username := s }
    | _ => Except.error "cannot unmarshal into field username of type string"
  else if k = "action" then
    match v with
    | Json.str s => Except.ok { e with action := s }
    | _ => Except.error "cannot unmarshal into field action of type string"
  else if k = "timestamp" then
    match v with
    | Json.str s => Except.ok { e with timestamp := s }
    | _ => Except.error "cannot unmarshal into field timestamp of type Time"
  else
    Except.ok e

/-- Fold the fields of a JSON object into a `UserEvent`. -/
def decodeUserFields : List (String × Json) → UserEvent →
    Except String UserEvent
  | [], e => Except.ok e
  | (k, v) :: rest, e =>
    match applyUserField e k v with
    | Except.ok e2 => decodeUserFields rest e2
    | Except.error m => Except.error m

/-- `json.Decode` of a JSON value into a `UserEvent`. -/
def decodeUserEvent : Json → Except String UserEvent
  | Json.obj fields => decodeUserFields fields UserEvent.zero
  | Json.null => Except.ok UserEvent.zero
  | _ => Except.error "cannot unmarshal into UserEvent"

/-- Apply one JSON object field to a `PaymentEvent` being decoded. -/
def applyPaymentField (e : PaymentEvent) (k : String) (v : Json) :
    Except String PaymentEvent :=
  if k = "payment_id" then
    match v with
    | Json.num n => Except.ok { e with payment_id := n }
    | _ => Except.error "cannot unmarshal into field payment_id of type int"
  else if k = "user_id" then
    match v with
    | Json.num n => Except.ok { e with user_id := n }
    | _ => Except.error "cannot unmarshal into field user_id of type int"
  else if k = "amount" then
    match v with
    | Json.num n => Except.ok { e with amount := n }
    | _ => Except.error "cannot unmarshal into field amount of type float64"
  else if k = "status" then
    match v with
    | Json.str s => Except.ok { e with status := s }
    | _ => Except.error "cannot unmarshal into field status of type string"
  else if k = "timestamp" then
    match v with
    | Json.str s => Except.ok { e with timestamp := s }
    | _ => Except.error "cannot unmarshal into field timestamp of type Time"
  else
    Except.ok e

/-- Fold the fields of a JSON object into a `PaymentEvent`. -/
def decodePaymentFields : List (String × Json) → PaymentEvent →
    Except String PaymentEvent
  | [], e => Except.ok e
  | (k, v) :: rest, e =>
    match applyPaymentField e k v with
    | Except.ok e2 => decodePaymentFields rest e2
    | Except.error m => Except.error m

/-- `json.Decode` of a JSON value into a `PaymentEvent`. -/
def decodePaymentEvent : Json → Except String PaymentEvent
  | Json.obj fields => decodePaymentFields fields PaymentEvent.zero
  | Json.null => Except.ok PaymentEvent.zero
  | _ => Except.error "cannot unmarshal into PaymentEvent"

/-- The topic switch of `handleEvent` followed by `json.Decode`: pick the
kind-specific struct for the topic (unknown topic is rejected) and decode
the body into it. -/
def decodeEvent (topic : String) (j : Json) : Except String EventData :=
  if topic = movieTopic then
    (decodeMovieEvent j).map EventData.movie
  else if topic = userTopic then
    (decodeUserEvent j).map EventData.user
  else if topic = paymentTopic then
    (decodePaymentEvent j).map EventData.payment
  else
    Except.error "Unknown event type"

/-- `json.Marshal` of the decoded struct: fields in declaration order with
their JSON tags (this is the byte payload written to Kafka). -/
def encodeEvent : EventData → Json
  | EventData.movie e =>
    Json.obj [("movie_id", Json.num e.movie_id), ("title", Json.str e.title),
      ("action", Json.str e.action), ("user_id", Json.num e.user_id)]
  | EventData.user e =>
    Json.obj [("user_id", Json.num e.user_id), ("username", Json.str e.username),
      ("action", Json.str e.action), ("timestamp", Json.str e.timestamp)]
  | EventData.payment e =>
    Json.obj [("payment_id", Json.num e.payment_id), ("user_id", Json.num e.user_id),
      ("amount", Json.num e.amount), ("status", Json.str e.status),
      ("timestamp", Json.str e.timestamp)]

/-! ## Events service: HTTP handler -/

/-- An HTTP response body: plain text written by `http.Error`, or a JSON
document written by `json.NewEncoder(w).Encode`. -/
inductive RespBody where
  | text (s : String)
  | json (j : Json)

/-- An HTTP response: status code and body. -/
structure Response where
  status : Nat
  body : RespBody

/-- Result of one `handleEvent` invocation: the HTTP response and the list
of `writer.WriteMessages` calls it made (each with the message passed). -/
structure HandlerResult where
  response : Response
  attempts : List KafkaMessage

/-- `handleEvent topic` serving one request (events-service main.go):
method gate, topic switch, `json.Decode` of the body, `json.Marshal`,
single Kafka write. `method` is `r.Method`; `body` is the request body
(`none` when it holds no JSON value: empty body or a syntax error);
`writeOk` is whether the single `writer.WriteMessages` call succeeds. -/
def handleEvent (topic method : String) (body : Option Json)
    (writeOk : Bool) : HandlerResult :=
  if method ≠ "POST" then
    ⟨⟨405, RespBody.text "Method not allowed"⟩, []⟩
  else if topic = movieTopic ∨ topic = userTopic ∨ topic = paymentTopic then
    match body with
    | none => ⟨⟨400, RespBody.text "EOF"⟩, []⟩
    | some j =>
      match decodeEvent topic j with
      | Except.error m => ⟨⟨400, RespBody.text m⟩, []⟩
      | Except.ok ev =>
        let bytes := encodeEvent ev
        if writeOk then
          ⟨⟨201, RespBody.json (Json.obj [("status", Json.str "success")])⟩,
            [⟨topic, bytes⟩]⟩
        else
          ⟨⟨500, RespBody.text "Failed to write message to Kafka"⟩,
            [⟨topic, bytes⟩]⟩
  else
    ⟨⟨400, RespBody.text "Unknown event type"⟩, []⟩

/-- The messages durably published by one handler invocation: the write
attempts that succeeded (none when the single write failed). -/
def publishedMessages (res : HandlerResult) (writeOk : Bool) :
    List KafkaMessage :=
  if writeOk then res.attempts else []

/-! ## Events service: consumer loops and process structure -/

/-- One result of `r.ReadMessage`: a message, or a read error. -/
inductive ReadResult where
  | msg (m : KafkaMessage)
  | readError (e : String)

/-- State of one consumer loop: still looping with the given pending reads,
or stopped after `break` on a read error. -/
inductive LoopState where
  | running (pending : List ReadResult)
  | stopped

/-- The events-service process as seen through its concurrent activities:
one consumer loop per topic (index `0`,`1`,`2` for movie, user, payment). -/
structure EventsProc where
  loops : Fin 3 → LoopState

/-- Replace the state of one consumer loop, leaving the others alone. -/
def updateLoop (s : EventsProc) (i : Fin 3) (ls : LoopState) : EventsProc :=
  ⟨fun j => if j = i then ls else s.loops j⟩

/-- Observable label of one process step. -/
inductive ProcLabel where
  | readMsg (i : Fin 3) (m : KafkaMessage)
  | readFail (i : Fin 3) (e : String)
  | http (topic method : String) (body : Option Json) (writeOk : Bool)
      (res : HandlerResult)

/-- Small-step semantics of the events-service process. Consumer loops are
Go routines with no shared state: each steps on its own pending reads only.
A successful read logs the message and loops; a read error breaks out of
that loop only. The HTTP surface runs in its own handler routines and is
always able to serve a request, with the response computed by
`handleEvent` independently of every loop's state. -/
inductive ProcStep : EventsProc → ProcLabel → EventsProc → Prop where
  | readMsg (s : EventsProc) (i : Fin 3) (m : KafkaMessage)
      (rest : List ReadResult)
      (h : s.loops i = LoopState.running (ReadResult.msg m :: rest)) :
      ProcStep s (ProcLabel.readMsg i m) (updateLoop s i (LoopState.running rest))
  | readFail (s : EventsProc) (i : Fin 3) (e : String)
      (rest : List ReadResult)
      (h : s.loops i = LoopState.running (ReadResult.readError e :: rest)) :
      ProcStep s (ProcLabel.readFail i e) (updateLoop s i LoopState.stopped)
  | http (s : EventsProc) (topic method : String) (body : Option Json)
      (writeOk : Bool) :
      ProcStep s
        (ProcLabel.http topic method body writeOk
          (handleEvent topic method body writeOk)) s

/-- Actions of the events-service `main`, in program order. -/
inductive MainAction where
  | startConsumer (topic : String)
  | registerHandler (path : String)
  | listenAndServe
  | fatalExit
  | waitConsumers
deriving DecidableEq, Repr

/-- The sequence of actions `main` of the events service executes
(main.go lines 142-172). The three consumer goroutines are started, the
handlers registered, then `http.ListenAndServe` runs. `serveResult` is its
outcome: `none` when it keeps serving (it blocks and never returns), or
`some err` when it returns its (always non-nil) error, upon which
`log.Fatalf` terminates the process at once. `wg.Wait()` sits after this
`if` and is recorded only on the unreachable nil-error path, which does not
exist: `ListenAndServe` never returns `nil`. -/
def eventsMainTrace (serveResult : Option String) : List MainAction :=
  [MainAction.startConsumer movieTopic,
   MainAction.startConsumer userTopic,
   MainAction.startConsumer paymentTopic,
   MainAction.registerHandler "/api/events/movie",
   MainAction.registerHandler "/api/events/user",
   MainAction.registerHandler "/api/events/payment",
   MainAction.registerHandler "/api/events/health",
   MainAction.listenAndServe] ++
  match serveResult with
  | none => []
  | some _ => [MainAction.fatalExit]

/-! ## Helper lemmas -/

/-- On a movies path, routing reduces to the migration test. -/
theorem route_movies_eq (cfg : GatewayConfig) (path : String) (draw : Nat)
    (hp : hasPrefixGo path "/api/movies" = true) :
    route cfg path draw =
      if cfg.gradualMigrationEnabled = true ∧ (draw : Int) < cfg.migrationPercent
        then Origin.moviesService else Origin.monolith := by
  unfold route
  rw [hp]
  simp

/-- Decoding only succeeds for one of the three registered topics. -/
theorem decodeEvent_topic_cases {topic : String} {j : Json} {ev : EventData}
    (h : decodeEvent topic j = Except.ok ev) :
    topic = movieTopic ∨ topic = userTopic ∨ topic = paymentTopic := by
  unfold decodeEvent at h
  split_ifs at h with h1 h2 h3
  · exact Or.inl h1
  · exact Or.inr (Or.inl h2)
  · exact Or.inr (Or.inr h3)

/-- Marshal/unmarshal roundtrip for `MovieEvent`. -/
theorem decodeMovieEvent_encode (e : MovieEvent) :
    decodeMovieEvent (encodeEvent (EventData.movie e)) = Except.ok e := by
  cases e; rfl

/-- Marshal/unmarshal roundtrip for `UserEvent`. -/
theorem decodeUserEvent_encode (e : UserEvent) :
    decodeUserEvent (encodeEvent (EventData.user e)) = Except.ok e := by
  cases e; rfl

/-- Marshal/unmarshal roundtrip for `PaymentEvent`. -/
theorem decodePaymentEvent_encode (e : PaymentEvent) :
    decodePaymentEvent (encodeEvent (EventData.payment e)) = Except.ok e := by
  cases e; rfl

/-- Whenever a body decodes to `ev`, the published re-serialization decodes
back to exactly `ev`. -/
theorem decodeEvent_encode_roundtrip {topic : String} {j : Json} {ev : EventData}
    (h : decodeEvent topic j = Except.ok ev) :
    decodeEvent topic (encodeEvent ev) = Except.ok ev := by
  unfold decodeEvent at h ⊢
  split_ifs at h ⊢ with h1 h2 h3
  · cases hX : decodeMovieEvent j with
    | error m => rw [hX] at h; exact absurd h (by simp [Except.map])
    | ok e =>
      rw [hX] at h
      simp only [Except.map] at h
      cases h
      rw [decodeMovieEvent_encode e]
      rfl
  · cases hX : decodeUserEvent j with
    | error m => rw [hX] at h; exact absurd h (by simp [Except.map])
    | ok e =>
      rw [hX] at h
      simp only [Except.map] at h
      cases h
      rw [decodeUserEvent_encode e]
      rfl
  · cases hX : decodePaymentEvent j with
    | error m => rw [hX] at h; exact absurd h (by simp [Except.map])
    | ok e =>
      rw [hX] at h
      simp only [Except.map] at h
      cases h
      rw [decodePaymentEvent_encode e]
      rfl

/-! ## Claim theorems: gateway routing -/

/-- C1: for a request whose path begins with /api/movies, migration enabled
routes to movies-service exactly when the fresh draw from [0,100) is
strictly below the configured percentage and to the monolith otherwise;
migration disabled always routes to the monolith; enabled with percentage
100 always hits movies-service and with percentage 0 always the monolith. -/
theorem movies_routing_follows_migration_draw
    (cfg : GatewayConfig) (path : String) (draw : Nat)
    (hd : draw < 100) (hp : hasPrefixGo path "/api/movies" = true) :
    (route cfg path draw = Origin.moviesService ↔
      cfg.gradualMigrationEnabled = true ∧ (draw : Int) < cfg.migrationPercent) ∧
    (cfg.gradualMigrationEnabled = false → route cfg path draw = Origin.monolith) ∧
    (cfg.gradualMigrationEnabled = true → cfg.migrationPercent = 100 →
      route cfg path draw = Origin.moviesService) ∧
    (cfg.migrationPercent = 0 → route cfg path draw = Origin.monolith) := by
  rw [route_movies_eq cfg path draw hp]
  refine ⟨?_, ?_, ?_, ?_⟩
  · split_ifs with h
    · simp [h]
    · simp [h]
  · intro he
    split_ifs with h
    · rw [he] at h
      exact absurd h.1 (by simp)
    · rfl
  · intro he h100
    split_ifs with h
    · rfl
    · exact absurd ⟨he, by rw [h100]; omega⟩ h
  · intro h0
    split_ifs with h
    · rw [h0] at h
      exfalso
      have := h.2
      omega
    · rfl

/-- C1 witness: with migration enabled at 100%, the draw 7 routes the
movies path to movies-service. -/
theorem movies_routing_follows_migration_draw_witness :
    route ⟨true, 100⟩ "/api/movies/42" 7 = Origin.moviesService :=
  (movies_routing_follows_migration_draw ⟨true, 100⟩ "/api/movies/42" 7
    (by decide) (by decide)).2.2.1 rfl rfl

/-- C2: a request whose path does not begin with /api/movies is forwarded
to events-service exactly when its path begins with /api/events (whatever
the migration settings) and to the monolith otherwise, and every request
goes to exactly one of the three origins. -/
theorem events_and_default_routing
    (cfg : GatewayConfig) (path : String) (draw : Nat)
    (hm : hasPrefixGo path "/api/movies" = false) :
    (hasPrefixGo path "/api/events" = true →
      route cfg path draw = Origin.eventsService) ∧
    (hasPrefixGo path "/api/events" = false →
      route cfg path draw = Origin.monolith) ∧
    (route cfg path draw = Origin.monolith ∨
      route cfg path draw = Origin.moviesService ∨
      route cfg path draw = Origin.eventsService) := by
  have hr : ∀ o : Origin, o = Origin.monolith ∨ o = Origin.moviesService ∨
      o = Origin.eventsService := by
    intro o
    cases o
    · exact Or.inl rfl
    · exact Or.inr (Or.inl rfl)
    · exact Or.inr (Or.inr rfl)
  refine ⟨?_, ?_, hr _⟩
  · intro he
    unfold route
    rw [hm, he]
    simp
  · intro he
    unfold route
    rw [hm, he]
    simp

/-- C2 witness: a users path routes to the monolith, an events path to
events-service. -/
theorem events_and_default_routing_witness :
    route ⟨true, 100⟩ "/api/events/movie" 3 = Origin.eventsService ∧
    route ⟨true, 100⟩ "/api/users/5" 3 = Origin.monolith :=
  ⟨(events_and_default_routing ⟨true, 100⟩ "/api/events/movie" 3
      (by decide)).1 (by decide),
    (events_and_default_routing ⟨true, 100⟩ "/api/users/5" 3
      (by decide)).2.1 (by decide)⟩

/-- C9: an unparsable MOVIES_MIGRATION_PERCENT is not fatal at startup
(while a malformed upstream URL is), the percentage defaults to 0, and
with migration enabled every /api/movies request then routes to the
monolith. -/
theorem invalid_percent_defaults_to_monolith
    (enabled : Bool) (path : String) (draw : Nat)
    (hp : hasPrefixGo path "/api/movies" = true) :
    gatewayStartup enabled none true = some ⟨enabled, 0⟩ ∧
    gatewayStartup enabled none false = none ∧
    route ⟨enabled, 0⟩ path draw = Origin.monolith := by
  refine ⟨rfl, rfl, ?_⟩
  rw [route_movies_eq ⟨enabled, 0⟩ path draw hp]
  split_ifs with h
  · exfalso
    have := h.2
    simp only at this
    omega
  · rfl

/-- C9 witness: startup with an unparsable percentage yields percentage 0
and a movies request with migration enabled goes to the monolith. -/
theorem invalid_percent_defaults_to_monolith_witness :
    gatewayStartup true none true = some ⟨true, 0⟩ ∧
    route ⟨true, 0⟩ "/api/movies/9" 42 = Origin.monolith :=
  ⟨(invalid_percent_defaults_to_monolith true "/api/movies/9" 42 (by decide)).1,
    (invalid_percent_defaults_to_monolith true "/api/movies/9" 42 (by decide)).2.2⟩

/-- C10: the migration percentage is never clamped to [0,100]: with
migration enabled, any configured value of at least 100 sends every
/api/movies request to movies-service, and any value of at most 0 (also
negative ones) sends every such request to the monolith, because the draw
lies in [0,100). -/
theorem migration_percent_unclamped
    (p : Int) (path : String) (draw : Nat)
    (hd : draw < 100) (hp : hasPrefixGo path "/api/movies" = true) :
    (100 ≤ p → route ⟨true, p⟩ path draw = Origin.moviesService) ∧
    (p ≤ 0 → route ⟨true, p⟩ path draw = Origin.monolith) := by
  rw [route_movies_eq ⟨true, p⟩ path draw hp]
  constructor
  · intro h100
    rw [if_pos]
    exact ⟨rfl, by simp only; omega⟩
  · intro h0
    rw [if_neg]
    intro h
    have := h.2
    simp only at this
    omega

/-- C10 witness: percentage 250 routes the draw 99 to movies-service and
percentage -5 routes the draw 0 to the monolith. -/
theorem migration_percent_unclamped_witness :
    route ⟨true, 250⟩ "/api/movies/1" 99 = Origin.moviesService ∧
    route ⟨true, -5⟩ "/api/movies/1" 0 = Origin.monolith :=
  ⟨(migration_percent_unclamped 250 "/api/movies/1" 99 (by decide) (by decide)).1
      (by decide),
    (migration_percent_unclamped (-5) "/api/movies/1" 0 (by decide) (by decide)).2
      (by decide)⟩

/-! ## Claim theorems: events service HTTP surface -/

/-- C3: a POST whose body decodes and whose broker write succeeds returns
201 with body {"status":"success"}, makes exactly one write to the kind's
topic carrying the re-serialized structure, and that payload decodes back
to exactly the decoded request content. -/
theorem event_post_success_publishes_roundtrip
    (topic method : String) (j : Json) (ev : EventData)
    (hm : method = "POST") (hd : decodeEvent topic j = Except.ok ev) :
    (handleEvent topic method (some j) true).response.status = 201 ∧
    (handleEvent topic method (some j) true).response.body =
      RespBody.json (Json.obj [("status", Json.str "success")]) ∧
    (handleEvent topic method (some j) true).attempts = [⟨topic, encodeEvent ev⟩] ∧
    publishedMessages (handleEvent topic method (some j) true) true =
      [⟨topic, encodeEvent ev⟩] ∧
    decodeEvent topic (encodeEvent ev) = Except.ok ev := by
  have htop := decodeEvent_topic_cases hd
  have hh : handleEvent topic method (some j) true =
      ⟨⟨201, RespBody.json (Json.obj [("status", Json.str "success")])⟩,
        [⟨topic, encodeEvent ev⟩]⟩ := by
    unfold handleEvent
    rw [hm]
    rw [if_neg (by simp)]
    rw [if_pos htop]
    simp [hd]
  rw [hh]
  exact ⟨rfl, rfl, rfl, rfl, decodeEvent_encode_roundtrip hd⟩

/-- C3 witness: the movie payload of the spec example is accepted and its
published message decodes back to the same content. -/
theorem event_post_success_publishes_roundtrip_witness :
    (handleEvent movieTopic "POST"
      (some (Json.obj [("movie_id", Json.num 1), ("title", Json.str "X"),
        ("action", Json.str "view"), ("user_id", Json.num 7)])) true).response.status
      = 201 ∧
    decodeEvent movieTopic (encodeEvent (EventData.movie ⟨1, "X", "view", 7⟩)) =
      Except.ok (EventData.movie ⟨1, "X", "view", 7⟩) := by
  have h := event_post_success_publishes_roundtrip movieTopic "POST"
    (Json.obj [("movie_id", Json.num 1), ("title", Json.str "X"),
      ("action", Json.str "view"), ("user_id", Json.num 7)])
    (EventData.movie ⟨1, "X", "view", 7⟩) rfl (by rfl)
  exact ⟨h.1, h.2.2.2.2⟩

/-- C4: a POST whose body is empty, not valid JSON, or does not decode into
the endpoint's event structure is answered with 400 and no write to any
topic is attempted. -/
theorem event_post_bad_body_rejected
    (topic method : String) (body : Option Json) (writeOk : Bool)
    (hm : method = "POST")
    (hb : ∀ j, body = some j → ∃ m, decodeEvent topic j = Except.error m) :
    (handleEvent topic method body writeOk).response.status = 400 ∧
    (handleEvent topic method body writeOk).attempts = [] ∧
    publishedMessages (handleEvent topic method body writeOk) writeOk = [] := by
  have hh : (handleEvent topic method body writeOk).response.status = 400 ∧
      (handleEvent topic method body writeOk).attempts = [] := by
    unfold handleEvent
    rw [hm]
    rw [if_neg (by simp)]
    by_cases ht : topic = movieTopic ∨ topic = userTopic ∨ topic = paymentTopic
    · rw [if_pos ht]
      match body with
      | none => exact ⟨rfl, rfl⟩
      | some j =>
        obtain ⟨m, hmj⟩ := hb j rfl
        simp [hmj]
    · rw [if_neg ht]
      exact ⟨rfl, rfl⟩
  refine ⟨hh.1, hh.2, ?_⟩
  unfold publishedMessages
  rw [hh.2]
  split_ifs <;> rfl

/-- C4 witness: an empty movie-endpoint body and a non-object body are both
rejected with 400 and nothing is written. -/
theorem event_post_bad_body_rejected_witness :
    (handleEvent movieTopic "POST" none true).response.status = 400 ∧
    (handleEvent movieTopic "POST" (some (Json.num 3)) true).attempts = [] :=
  ⟨(event_post_bad_body_rejected movieTopic "POST" none true rfl
      (by intro j h; cases h)).1,
    (event_post_bad_body_rejected movieTopic "POST" (some (Json.num 3)) true rfl
      (by
        intro j h
        cases h
        exact ⟨"cannot unmarshal into MovieEvent", rfl⟩)).2.1⟩

/-- C5: a POST whose body decodes but whose broker write fails is answered
with 500; exactly one write attempt is made (carrying the re-serialized
event) and no message is durably published. -/
theorem event_post_write_failure_single_attempt
    (topic method : String) (j : Json) (ev : EventData)
    (hm : method = "POST") (hd : decodeEvent topic j = Except.ok ev) :
    (handleEvent topic method (some j) false).response.status = 500 ∧
    (handleEvent topic method (some j) false).attempts = [⟨topic, encodeEvent ev⟩] ∧
    publishedMessages (handleEvent topic method (some j) false) false = [] := by
  have htop := decodeEvent_topic_cases hd
  have hh : handleEvent topic method (some j) false =
      ⟨⟨500, RespBody.text "Failed to write message to Kafka"⟩,
        [⟨topic, encodeEvent ev⟩]⟩ := by
    unfold handleEvent
    rw [hm]
    rw [if_neg (by simp)]
    rw [if_pos htop]
    simp [hd]
  rw [hh]
  exact ⟨rfl, rfl, rfl⟩

/-- C5 witness: the example movie payload with a failing broker write gets
500, one attempted message, nothing published. -/
theorem event_post_write_failure_single_attempt_witness :
    (handleEvent movieTopic "POST"
      (some (Json.obj [("movie_id", Json.num 1), ("title", Json.str "X"),
        ("action", Json.str "view"), ("user_id", Json.num 7)])) false).response.status
      = 500 ∧
    publishedMessages (handleEvent movieTopic "POST"
      (some (Json.obj [("movie_id", Json.num 1), ("title", Json.str "X"),
        ("action", Json.str "view"), ("user_id", Json.num 7)])) false) false = [] := by
  have h := event_post_write_failure_single_attempt movieTopic "POST"
    (Json.obj [("movie_id", Json.num 1), ("title", Json.str "X"),
      ("action", Json.str "view"), ("user_id", Json.num 7)])
    (EventData.movie ⟨1, "X", "view", 7⟩) rfl (by rfl)
  exact ⟨h.1, h.2.2⟩

/-- C6: any non-POST request to an event endpoint is answered 405 with no
side effect: no write is attempted and the whole handler result is
independent of the request body and of the broker. -/
theorem event_wrong_method_rejected_no_effect
    (topic method : String) (body : Option Json) (writeOk : Bool)
    (hm : method ≠ "POST") :
    (handleEvent topic method body writeOk).response.status = 405 ∧
    (handleEvent topic method body writeOk).response.body =
      RespBody.text "Method not allowed" ∧
    (handleEvent topic method body writeOk).attempts = [] ∧
    (∀ body2 writeOk2, handleEvent topic method body2 writeOk2 =
      handleEvent topic method body writeOk) := by
  have hh : ∀ (b : Option Json) (w : Bool), handleEvent topic method b w =
      ⟨⟨405, RespBody.text "Method not allowed"⟩, []⟩ := by
    intro b w
    unfold handleEvent
    rw [if_pos hm]
  rw [hh body writeOk]
  exact ⟨rfl, rfl, rfl, fun b2 w2 => by rw [hh b2 w2]⟩

/-- C6 witness: a GET to the movie endpoint is answered 405 with no write
attempt. -/
theorem event_wrong_method_rejected_no_effect_witness :
    (handleEvent movieTopic "GET" (some (Json.obj [])) true).response.status = 405 ∧
    (handleEvent movieTopic "GET" (some (Json.obj [])) true).attempts = [] :=
  ⟨(event_wrong_method_rejected_no_effect movieTopic "GET" (some (Json.obj [])) true
      (by decide)).1,
    (event_wrong_method_rejected_no_effect movieTopic "GET" (some (Json.obj [])) true
      (by decide)).2.2.1⟩

/-! ## Claim theorems: consumer loops and process structure -/

/-- C7: a read error in one topic's consumer loop stops exactly that loop:
the failing loop takes its final step to the stopped state, the other two
loops keep their state and can still take their read steps, the stopped
loop can never read again (no reconnection), and the HTTP surface still
serves every request with the response computed by `handleEvent`; no step
of the process semantics terminates anything beyond the failing loop. -/
theorem consumer_read_error_isolated
    (s : EventsProc) (i : Fin 3) (e : String) (rest : List ReadResult)
    (h : s.loops i = LoopState.running (ReadResult.readError e :: rest)) :
    ProcStep s (ProcLabel.readFail i e) (updateLoop s i LoopState.stopped) ∧
    (updateLoop s i LoopState.stopped).loops i = LoopState.stopped ∧
    (∀ j, j ≠ i → (updateLoop s i LoopState.stopped).loops j = s.loops j) ∧
    (∀ m s2, ¬ ProcStep (updateLoop s i LoopState.stopped)
      (ProcLabel.readMsg i m) s2) ∧
    (∀ e2 s2, ¬ ProcStep (updateLoop s i LoopState.stopped)
      (ProcLabel.readFail i e2) s2) ∧
    (∀ topic method body writeOk, ProcStep (updateLoop s i LoopState.stopped)
      (ProcLabel.http topic method body writeOk
        (handleEvent topic method body writeOk))
      (updateLoop s i LoopState.stopped)) ∧
    (∀ j m rest2, j ≠ i →
      s.loops j = LoopState.running (ReadResult.msg m :: rest2) →
      ProcStep (updateLoop s i LoopState.stopped) (ProcLabel.readMsg j m)
        (updateLoop (updateLoop s i LoopState.stopped) j (LoopState.running rest2))) := by
  refine ⟨ProcStep.readFail s i e rest h, ?_, ?_, ?_, ?_, ?_, ?_⟩
  · simp [updateLoop]
  · intro j hj
    simp [updateLoop, hj]
  · intro m s2 hstep
    cases hstep with
    | readMsg _ _ rx hx =>
      rw [show (updateLoop s i LoopState.stopped).loops i = LoopState.stopped by
        simp [updateLoop]] at hx
      exact LoopState.noConfusion hx
  · intro e2 s2 hstep
    cases hstep with
    | readFail _ _ rx hx =>
      rw [show (updateLoop s i LoopState.stopped).loops i = LoopState.stopped by
        simp [updateLoop]] at hx
      exact LoopState.noConfusion hx
  · intro topic method body writeOk
    exact ProcStep.http (updateLoop s i LoopState.stopped) topic method body writeOk
  · intro j m rest2 hj hrun
    refine ProcStep.readMsg (updateLoop s i LoopState.stopped) j m rest2 ?_
    rw [show (updateLoop s i LoopState.stopped).loops j = s.loops j by
      simp [updateLoop, hj]]
    exact hrun

/-- C7 witness: with all three loops running, a read error in loop 0 stops
it while the process semantics keeps the other loops and HTTP steps. -/
theorem consumer_read_error_isolated_witness :
    ProcStep ⟨fun _ => LoopState.running [ReadResult.readError "broker gone"]⟩
      (ProcLabel.readFail 0 "broker gone")
      (updateLoop ⟨fun _ => LoopState.running [ReadResult.readError "broker gone"]⟩
        0 LoopState.stopped) ∧
    (updateLoop ⟨fun _ => LoopState.running [ReadResult.readError "broker gone"]⟩
      0 LoopState.stopped).loops 1 =
      LoopState.running [ReadResult.readError "broker gone"] := by
  have h := consumer_read_error_isolated
    ⟨fun _ => LoopState.running [ReadResult.readError "broker gone"]⟩
    0 "broker gone" [] rfl
  exact ⟨h.1, by rw [h.2.2.1 1 (by decide)]⟩

/-- C8: in the events-service `main`, `wg.Wait()` is unreachable dead
code: `http.ListenAndServe` either serves forever or returns its non-nil
error, upon which `log.Fatalf` terminates the process immediately — so
when the server fails, the process exits without waiting for the consumer
loops, although all three loops were started first. -/
theorem events_main_never_waits_consumers :
    (∀ r : Option String, MainAction.waitConsumers ∉ eventsMainTrace r) ∧
    (∀ err : String, (eventsMainTrace (some err)).getLast? =
      some MainAction.fatalExit) ∧
    (∀ r : Option String, (eventsMainTrace r).take 3 =
      [MainAction.startConsumer movieTopic, MainAction.startConsumer userTopic,
        MainAction.startConsumer paymentTopic]) := by
  refine ⟨?_, ?_, ?_⟩
  · intro r
    cases r <;> simp [eventsMainTrace]
  · intro err
    rfl
  · intro r
    cases r <;> rfl
